import Mathlib

/-!
Verification of the directional-task half-cheetah environment
(`src/garage/envs/half_cheetah_dir_env.py`) and the benchmark harness
configuration (`tests/benchmarks/garage/tf/algos/test_benchmark_rl2_new2.py`).

The MuJoCo simulator (`do_simulation`, `self.sim`, `self.dt`, `_get_obs`) is
an external collaborator of this repository, so it is abstracted: the
simulator state is a record of position and velocity arrays, and the physics
transition is an arbitrary parameter of type `Physics`.  All reward
computations of `HalfCheetahDirEnv.step` are translated exactly, over ℚ.
-/

namespace Garage

/-- The simulator state owned by the base environment: position array `qpos`
and velocity array `qvel` (mirrors `self.sim.data.qpos` / `qvel`). -/
structure SimState where
  qpos : List ℚ
  qvel : List ℚ
deriving Repr, DecidableEq

/-- `self.sim.data.qpos[0]`, the x-position of the cheetah. -/
def pos0 (s : SimState) : ℚ := s.qpos.headD 0

/-- An action vector. -/
abbrev Action := List ℚ

/-- The external MuJoCo physics: `self.do_simulation(action, self.frame_skip)`
as a transition on simulator states.  It is a collaborator outside this
repository, hence an arbitrary parameter. -/
abbrev Physics := SimState → Action → SimState

/-- A task: a mapping with the single key `direction`
(`{'direction': d}`). -/
structure Task where
  direction : ℚ
deriving Repr, DecidableEq

/-- The environment instance: the active direction `self._goal_dir`, the
simulator state, and the effective timestep `self.dt` inherited from the
base locomotion environment. -/
structure HalfCheetahDirEnv where
  goal_dir : ℚ
  sim : SimState
  dt : ℚ
deriving Repr, DecidableEq

/-- `HalfCheetahDirEnv.__init__(task)`:
`task = task or {'direction': 1.}; self._goal_dir = task['direction']`.
The simulator state and timestep come from `super().__init__()`, which is
external, so they are parameters. -/
def init (task : Option Task) (sim0 : SimState) (dt : ℚ) : HalfCheetahDirEnv :=
  { goal_dir := (task.getD ⟨1⟩).direction, sim := sim0, dt := dt }

/-- `np.sum(np.square(action))`. -/
def sumSq (a : Action) : ℚ := (a.map fun x => x * x).sum

/-- `self._get_obs()`: the observation produced by the external base class
from the simulator state. -/
def get_obs (s : SimState) : List ℚ := s.qpos ++ s.qvel

/-- The `(observation, reward, done, infos)` tuple returned by `step`,
with the `infos` dictionary flattened into its three keys. -/
structure StepResult where
  observation : List ℚ
  reward : ℚ
  done : Bool
  reward_forward : ℚ
  reward_ctrl : ℚ
  task_dir : ℚ
deriving Repr, DecidableEq

/-- `HalfCheetahDirEnv.step(action)`, translated line by line:

    xposbefore = self.sim.data.qpos[0]
    self.do_simulation(action, self.frame_skip)
    xposafter = self.sim.data.qpos[0]
    forward_vel = (xposafter - xposbefore) / self.dt
    forward_reward = self._goal_dir * forward_vel
    ctrl_cost = 0.5 * 1e-1 * np.sum(np.square(action))
    observation = self._get_obs()
    reward = forward_reward - ctrl_cost
    done = False
    infos = dict(reward_forward=forward_reward,
                 reward_ctrl=-ctrl_cost,
                 task_dir=self._goal_dir)

Returns the updated environment (the simulator advanced) together with the
returned tuple. -/
def step (phys : Physics) (env : HalfCheetahDirEnv) (action : Action) :
    HalfCheetahDirEnv × StepResult :=
  let xposbefore := pos0 env.sim
  let sim2 := phys env.sim action
  let xposafter := pos0 sim2
  let forward_vel := (xposafter - xposbefore) / env.dt
  let forward_reward := env.goal_dir * forward_vel
  let ctrl_cost := (1 / 2 : ℚ) * (1 / 10) * sumSq action
  ({ env with sim := sim2 },
   { observation := get_obs sim2
     reward := forward_reward - ctrl_cost
     done := false
     reward_forward := forward_reward
     reward_ctrl := -ctrl_cost
     task_dir := env.goal_dir })

/-- `HalfCheetahDirEnv.sample_tasks(num_tasks)`:

    directions = 2 * self.np_random.binomial(1, p=0.5, size=(num_tasks,)) - 1
    tasks = [{'direction': direction} for direction in directions]

The environment's seeded random source `self.np_random` is modelled as a
stream of fair-coin draws `bits : ℕ → Bool` (the i-th binomial(1, 0.5)
sample). -/
def sample_tasks (bits : ℕ → Bool) (num_tasks : ℕ) : List Task :=
  (List.range num_tasks).map fun i =>
    ⟨2 * (if bits i then 1 else 0) - 1⟩

/-- `HalfCheetahDirEnv.set_task(task)`: `self._goal_dir = task['direction']`. -/
def set_task (env : HalfCheetahDirEnv) (task : Task) : HalfCheetahDirEnv :=
  { env with goal_dir := task.direction }

/-- Repeated `step` calls over a fixed action sequence, collecting the
returned tuples in order. -/
def run (phys : Physics) (env : HalfCheetahDirEnv) : List Action → List StepResult
  | [] => []
  | a :: rest =>
    let out := step phys env a
    out.2 :: run phys out.1 rest

/-- A concrete simulator state used to instantiate theorems. -/
def simEx : SimState := ⟨[0, 0], [0, 0]⟩

/-! ## Benchmark harness (`test_benchmark_rl2_new2.py`) -/

/-- `ML = False` (the module-level flag: "If false, run ML else HalfCheetah"). -/
def ML : Bool := false

/-- The fields of the module-level `hyper_parameters` dictionary that the
claims refer to. -/
structure HyperParameters where
  meta_batch_size : ℕ
  max_path_length : ℕ
  n_itr : ℕ
  steps_per_epoch : ℕ
  rollout_per_task : ℕ
  n_trials : ℕ
  n_test_tasks : ℕ
deriving Repr, DecidableEq

/-- The configured hyperparameters:

    'meta_batch_size': 50, 'max_path_length': 150,
    'n_itr': 100 if ML else 50, 'steps_per_epoch': 10,
    'rollout_per_task': 10, 'n_trials': 1, 'n_test_tasks': 10. -/
def hyper_parameters : HyperParameters :=
  { meta_batch_size := 50
    max_path_length := 150
    n_itr := if ML then 100 else 50
    steps_per_epoch := 10
    rollout_per_task := 10
    n_trials := 1
    n_test_tasks := 10 }

/-- The arguments of the `runner.train` call. -/
structure TrainCall where
  n_epochs : ℕ
  batch_size : ℕ
deriving Repr, DecidableEq

/-- The training-loop invocation made by `run_garage`:

    runner.train(n_epochs=hyper_parameters['n_itr'],
        batch_size=hyper_parameters['meta_batch_size']
            * hyper_parameters['rollout_per_task']
            * hyper_parameters['max_path_length']) -/
def run_garage_train_call : TrainCall :=
  { n_epochs := hyper_parameters.n_itr
    batch_size := hyper_parameters.meta_batch_size *
      hyper_parameters.rollout_per_task * hyper_parameters.max_path_length }

/-! ## Helper lemmas -/

/-- The sum of squares of an action vector is non-negative. -/
theorem sumSq_nonneg (a : Action) : 0 ≤ sumSq a := by
  refine List.sum_nonneg ?_
  intro x hx
  rcases List.mem_map.mp hx with ⟨y, _, rfl⟩
  exact mul_self_nonneg y

/-! ## Claim theorems -/

/-- C1: For every `step(action)` call with active direction `d`, the forward
velocity is `(position_after - position_before) / effective_timestep`, the
forward reward is `d` times that velocity, and the returned reward is the
forward reward minus the control cost `0.5 * 0.1 * sum(action_i^2)`. -/
theorem step_reward_decomposition (phys : Physics) (env : HalfCheetahDirEnv)
    (a : Action) :
    (step phys env a).2.reward_forward =
      env.goal_dir * ((pos0 (step phys env a).1.sim - pos0 env.sim) / env.dt) ∧
    (step phys env a).2.reward =
      (step phys env a).2.reward_forward - (1 / 2 : ℚ) * (1 / 10) * sumSq a := by
  constructor <;> simp [step]

/-- C2: For a fixed physics, initial simulator state and action sequence, the
run with direction `1.0` and the run with direction `-1.0` produce, at every
step, `reward_forward` values that are exact negatives of each other and
identical `reward_ctrl` values. -/
theorem run_direction_negation (phys : Physics) (sim0 : SimState) (dt : ℚ)
    (actions : List Action) :
    List.Forall₂
      (fun r1 r2 => r1.reward_forward = -r2.reward_forward ∧
        r1.reward_ctrl = r2.reward_ctrl)
      (run phys { goal_dir := 1, sim := sim0, dt := dt } actions)
      (run phys { goal_dir := -1, sim := sim0, dt := dt } actions) := by
  induction actions generalizing sim0 with
  | nil => exact List.Forall₂.nil
  | cons a rest ih =>
      refine List.Forall₂.cons ⟨?_, ?_⟩ (ih (phys sim0 a))
      · simp [step, run]
      · simp [step, run]

/-- C3: `sample_tasks(num_tasks)` returns an ordered list of exactly
`num_tasks` tasks, each with direction in `{-1, 1}`, the i-th direction being
determined by the i-th draw of the environment's own random source. -/
theorem sample_tasks_spec (bits : ℕ → Bool) (n : ℕ) :
    (sample_tasks bits n).length = n ∧
    (∀ t ∈ sample_tasks bits n, t.direction = -1 ∨ t.direction = 1) ∧
    (∀ i, i < n →
      (sample_tasks bits n).getD i ⟨0⟩ =
        ⟨2 * (if bits i then 1 else 0) - 1⟩) := by
  refine ⟨by simp [sample_tasks], ?_, ?_⟩
  · intro t ht
    rcases List.mem_map.mp ht with ⟨i, _, rfl⟩
    cases h : bits i with
    | false => left; norm_num [h]
    | true => right; norm_num [h]
  · intro i hi
    simp [sample_tasks, List.getD_eq_getElem?_getD, hi]

/-- C3 witness: the spec theorem instantiated at a constant coin stream and
`num_tasks = 2`. -/
theorem sample_tasks_spec_witness :
    (sample_tasks (fun _ => true) 2).length = 2 ∧
    ((⟨1⟩ : Task) ∈ sample_tasks (fun _ => true) 2 ∧
      ((⟨1⟩ : Task).direction = -1 ∨ (⟨1⟩ : Task).direction = 1)) ∧
    (sample_tasks (fun _ => true) 2).getD 0 ⟨0⟩ =
      ⟨2 * (if (fun _ : ℕ => true) 0 then 1 else 0) - 1⟩ :=
  ⟨(sample_tasks_spec (fun _ => true) 2).1,
   ⟨by norm_num [sample_tasks, List.range_succ],
    (sample_tasks_spec (fun _ => true) 2).2.1 ⟨1⟩
      (by norm_num [sample_tasks, List.range_succ])⟩,
   (sample_tasks_spec (fun _ => true) 2).2.2 0 (by decide)⟩

/-- C4: `set_task(task)` replaces only the active direction: the simulator
state (position and velocity arrays) and the timestep are unchanged, the
direction becomes the task's direction, and the next `step` call reports the
new direction. -/
theorem set_task_frame (env : HalfCheetahDirEnv) (task : Task) :
    (set_task env task).sim = env.sim ∧
    (set_task env task).dt = env.dt ∧
    (set_task env task).goal_dir = task.direction ∧
    (∀ phys : Physics, ∀ a : Action,
      (step phys (set_task env task) a).2.task_dir = task.direction) := by
  refine ⟨rfl, rfl, rfl, ?_⟩
  intro phys a
  simp [step, set_task]

/-- C5 counterexample: `set_task` performs no validation, so a task with
direction `3` drives the active direction outside `{-1, 1}`. -/
theorem set_task_escapes_invariant :
    ¬ ((set_task (init none simEx 1) ⟨3⟩).goal_dir = -1 ∨
       (set_task (init none simEx 1) ⟨3⟩).goal_dir = 1) := by
  simp [set_task, init, simEx]
  norm_num

/-- C5 amended: the active direction is in `{-1, 1}` after construction and
is preserved by `step` and by `set_task`, provided the constructor's task (if
any) and every task passed to `set_task` have direction in `{-1, 1}`; neither
the constructor nor `set_task` validates its argument. -/
theorem goal_dir_invariant (task0 : Option Task) (sim0 : SimState) (dt : ℚ)
    (h0 : ∀ t, task0 = some t → t.direction = -1 ∨ t.direction = 1) :
    ((init task0 sim0 dt).goal_dir = -1 ∨ (init task0 sim0 dt).goal_dir = 1) ∧
    (∀ env : HalfCheetahDirEnv,
      (env.goal_dir = -1 ∨ env.goal_dir = 1) →
      (∀ phys : Physics, ∀ a : Action,
        ((step phys env a).1.goal_dir = -1 ∨ (step phys env a).1.goal_dir = 1)) ∧
      (∀ t : Task, (t.direction = -1 ∨ t.direction = 1) →
        ((set_task env t).goal_dir = -1 ∨ (set_task env t).goal_dir = 1))) := by
  refine ⟨?_, ?_⟩
  · cases task0 with
    | none => right; rfl
    | some t => exact h0 t rfl
  · intro env henv
    refine ⟨fun phys a => ?_, fun t ht => ?_⟩
    · simpa [step] using henv
    · simpa [set_task] using ht

/-- C5 amended witness: the invariant theorem applied to a `None`-task
construction. -/
theorem goal_dir_invariant_witness :
    (init none simEx 1).goal_dir = -1 ∨ (init none simEx 1).goal_dir = 1 :=
  (goal_dir_invariant none simEx 1 (fun t h => by cases h)).1

/-- C6: for every `step(action)` call, the reported `reward_ctrl` equals
`-0.05 * sum(action_i^2)` and is non-positive. -/
theorem reward_ctrl_spec (phys : Physics) (env : HalfCheetahDirEnv)
    (a : Action) :
    (step phys env a).2.reward_ctrl = -(1 / 20 : ℚ) * sumSq a ∧
    (step phys env a).2.reward_ctrl ≤ 0 := by
  have h : (step phys env a).2.reward_ctrl = -(1 / 20 : ℚ) * sumSq a := by
    show -((1 / 2 : ℚ) * (1 / 10) * sumSq a) = -(1 / 20 : ℚ) * sumSq a
    ring
  refine ⟨h, ?_⟩
  rw [h]
  have := sumSq_nonneg a
  nlinarith

/-- C7: overwriting a `-1` task with a `1` task yields the same environment as
setting the `1` task directly; `set_task` is idempotent; and if the
environment already had direction `1`, the double `set_task` restores it
exactly. -/
theorem set_task_overwrite (env : HalfCheetahDirEnv) :
    set_task (set_task env ⟨-1⟩) ⟨1⟩ = set_task env ⟨1⟩ ∧
    (∀ t : Task, set_task (set_task env t) t = set_task env t) ∧
    (env.goal_dir = 1 → set_task (set_task env ⟨-1⟩) ⟨1⟩ = env) := by
  refine ⟨rfl, fun t => rfl, ?_⟩
  intro h
  cases env with
  | mk g s d => cases h; rfl

/-- C7 witness: the overwrite theorem applied to the default-constructed
environment, whose direction is `1`. -/
theorem set_task_overwrite_witness :
    set_task (set_task (init none simEx 1) ⟨-1⟩) ⟨1⟩ =
      set_task (init none simEx 1) ⟨1⟩ ∧
    set_task (set_task (init none simEx 1) ⟨2⟩) ⟨2⟩ =
      set_task (init none simEx 1) ⟨2⟩ ∧
    set_task (set_task (init none simEx 1) ⟨-1⟩) ⟨1⟩ = init none simEx 1 :=
  ⟨(set_task_overwrite (init none simEx 1)).1,
   (set_task_overwrite (init none simEx 1)).2.1 ⟨2⟩,
   (set_task_overwrite (init none simEx 1)).2.2 rfl⟩

/-- C8: the `done` flag returned by `step` is `False` on every call,
regardless of how many steps have been taken. -/
theorem step_done_false (phys : Physics) (env : HalfCheetahDirEnv)
    (a : Action) (actions : List Action) :
    (step phys env a).2.done = false ∧
    ((run phys env actions).all fun r => !r.done) = true := by
  refine ⟨rfl, ?_⟩
  induction actions generalizing env with
  | nil => rfl
  | cons b rest ih => simpa [run, step] using ih _

/-- C9: `run_garage` invokes `runner.train` with `n_epochs` equal to the
configured iteration count (`n_itr = 50` since `ML` is false) and
`batch_size` equal to meta-batch-size times episodes-per-task times
max-path-length, i.e. `50 * 10 * 150`. -/
theorem run_garage_train_args :
    run_garage_train_call.n_epochs = hyper_parameters.n_itr ∧
    run_garage_train_call.batch_size =
      hyper_parameters.meta_batch_size * hyper_parameters.rollout_per_task *
        hyper_parameters.max_path_length ∧
    run_garage_train_call.n_epochs = 50 ∧
    run_garage_train_call.batch_size = 50 * 10 * 150 := by
  refine ⟨rfl, rfl, rfl, rfl⟩

/-- C10: the info mapping is consistent with the returned reward:
`reward = reward_forward + reward_ctrl`, and `task_dir` is the active
direction. -/
theorem step_info_consistent (phys : Physics) (env : HalfCheetahDirEnv)
    (a : Action) :
    (step phys env a).2.reward =
      (step phys env a).2.reward_forward + (step phys env a).2.reward_ctrl ∧
    (step phys env a).2.task_dir = env.goal_dir := by
  constructor
  · simp [step]; ring
  · rfl

end Garage
